import Mathlib

set_option maxRecDepth 4000

/-!
Verification development for the GD32E230G8 target driver
(`pyocd/target/builtin/target_GD32E230G8.py`).

The driver talks to a physical flash controller only through 16/32-bit
memory read/write primitives, a sleep, a bounded-deadline helper, a logger
and a chip-erase collaborator.  We embed it as a deterministic state
machine: values returned by reads are drawn from an environment oracle
(`St.env`, indexed by the number of reads performed so far), and every
externally visible action (register read/write, sleep, log, chip-erase
call) is recorded in an event trace.  Time is measured in tenths of a
time unit so that the 10.0-unit deadline and the 0.1-unit poll interval
of the source are exact naturals.
-/

namespace GD32

/-! ## Register addresses and bit masks (module constants of the source) -/

def FMC_KEY : Nat := 0x40022004
def FMC_OBKEY : Nat := 0x40022008
def FMC_STAT : Nat := 0x4002200C
def FMC_CTL : Nat := 0x40022010
def FMC_OBSTAT : Nat := 0x4002201C

def OBPG : Nat := 1 <<< 4
def OBER : Nat := 1 <<< 5
def START : Nat := 1 <<< 6
def OBWEN : Nat := 1 <<< 9

def BUSY : Nat := 1 <<< 0

def KEY1 : Nat := 0x45670123
def KEY2 : Nat := 0xCDEF89AB

/-- Truncation modulus of a 32-bit read. -/
def M32 : Nat := 2 ^ 32

/-- Truncation modulus of a 16-bit read. -/
def M16 : Nat := 2 ^ 16

/-- The `FLASH_ERASE_TIMEOUT = 10.0` time units, expressed in tenths. -/
def FLASH_ERASE_TIMEOUT_TENTHS : Nat := 100

/-- The `sleep(0.1)` poll interval, expressed in tenths of a time unit. -/
def POLL_INTERVAL_TENTHS : Nat := 1

/-! ## Events and machine state -/

/-- Log messages emitted via `LOG.error` in the source, as symbols. -/
inductive LogMsg
  /-- the log message "Option byte erase timeout" -/
  | optionEraseTimeout
  /-- the log message "%s: option byte unlock fail" -/
  | optionUnlockFail
  /-- the log message "%s: mass erase failed" -/
  | massEraseFail
  deriving DecidableEq, Repr

/-- The exception raised by `mass_erase`; both raise sites use the message
"unable to unlock device" (`exceptions.TargetError`). -/
inductive TgtErr
  | unableToUnlockDevice
  deriving DecidableEq, Repr

/-- Modelled from the spec: the chip-erase collaborator (`FlashEraser`)
is invoked with a mode; the source uses the chip-wide mode.  The
collaborator itself is outside the embedded source. -/
inductive EraserMode
  | mass
  | chip
  | sector
  deriving DecidableEq, Repr

/-- Externally visible actions of the driver, in program order. -/
inductive Ev
  | w32 (addr val : Nat)
  | w16 (addr val : Nat)
  | r32 (addr val : Nat)
  | r16 (addr val : Nat)
  /-- one `sleep(0.1)` -/
  | sleepTenth
  | logError (m : LogMsg)
  /-- a call to the chip-erase collaborator with the given mode and
  completion-logging flag (`_log_chip_erase`) -/
  | chipErase (mode : EraserMode) (logChipErase : Bool)
  deriving DecidableEq, Repr

/-- Machine state: the read oracle, the count of reads performed so far
(the oracle index), and the trace of events so far. -/
structure St where
  env : Nat → Nat
  k : Nat
  trace : List Ev

/-! ## Memory-access primitives (external collaborators)

Modelled from the spec: "target-wide 8/16/32-bit memory read/write
primitives — assumed reliable, synchronous".  A read returns the next
oracle value truncated to the access width; a write records the value. -/

def read32 (addr : Nat) (s : St) : Nat × St :=
  let v := s.env s.k % M32
  (v, { s with k := s.k + 1, trace := s.trace ++ [Ev.r32 addr v] })

def read16 (addr : Nat) (s : St) : Nat × St :=
  let v := s.env s.k % M16
  (v, { s with k := s.k + 1, trace := s.trace ++ [Ev.r16 addr v] })

def write32 (addr val : Nat) (s : St) : St :=
  { s with trace := s.trace ++ [Ev.w32 addr val] }

def write16 (addr val : Nat) (s : St) : St :=
  { s with trace := s.trace ++ [Ev.w16 addr val] }

def sleepTenth (s : St) : St :=
  { s with trace := s.trace ++ [Ev.sleepTenth] }

def logErr (m : LogMsg) (s : St) : St :=
  { s with trace := s.trace ++ [Ev.logError m] }

/-- Modelled from the spec: the chip-erase collaborator call
(`FlashEraser(session, Mode.CHIP)` with `_log_chip_erase = False`,
then `erase()`); recorded as a single opaque event. -/
def chipEraseCall (s : St) : St :=
  { s with trace := s.trace ++ [Ev.chipErase EraserMode.chip false] }

/-! ## The driver operations -/

/-- Source `is_locked`: read `FMC_OBSTAT` and test bit 1. -/
def is_locked (s : St) : Bool × St :=
  let r := read32 FMC_OBSTAT s
  ((r.1 &&& 0x2) != 0, r.2)

/-- Source `_flash_unlock`: write KEY1 then KEY2 to `FMC_KEY`. -/
def flash_unlock (s : St) : St :=
  write32 FMC_KEY KEY2 (write32 FMC_KEY KEY1 s)

/-- Source `_option_unlock`: `_flash_unlock`, then KEY1 then KEY2 to `FMC_OBKEY`. -/
def option_unlock (s : St) : St :=
  write32 FMC_OBKEY KEY2 (write32 FMC_OBKEY KEY1 (flash_unlock s))

/-- Number of busy-poll iterations the deadline admits.  Modelled from the
spec: the `Timeout` helper computes a deadline of 10.0 time units once at
entry and `check()` passes while the elapsed time is below it; each
iteration that observes BUSY sleeps 0.1 units, so at most
timeout / interval iterations run. -/
def pollBudget : Nat := FLASH_ERASE_TIMEOUT_TENTHS / POLL_INTERVAL_TENTHS

/-- The busy-poll loop body: while the deadline check passes, read
`FMC_STAT`; break (success) when BUSY is clear, else sleep one interval.
Fuel counts the remaining deadline checks that can pass. -/
def pollLoop : Nat → St → Bool × St
  | 0, s => (false, s)
  | fuel + 1, s =>
    let r := read32 FMC_STAT s
    if (r.1 &&& BUSY) = 0 then (true, r.2)
    else pollLoop fuel (sleepTenth r.2)

/-- A `with Timeout(FLASH_ERASE_TIMEOUT)` busy-poll, starting with the
full deadline. -/
def busyPoll (s : St) : Bool × St :=
  pollLoop pollBudget s

/-- Source `_option_erase`: `_option_unlock`; write OBER|OBWEN then
OBER|OBWEN|START to `FMC_CTL`; busy-poll; on deadline expiry log
"Option byte erase timeout" and return `false`, else return `true`. -/
def option_erase (s : St) : Bool × St :=
  let s1 := option_unlock s
  let s2 := write32 FMC_CTL (OBER ||| OBWEN) s1
  let s3 := write32 FMC_CTL (OBER ||| OBWEN ||| START) s2
  let p := busyPoll s3
  if p.1 then (true, p.2)
  else (false, logErr LogMsg.optionEraseTimeout p.2)

/-- Source `mass_erase`: if locked, read the user option word at 0x1FFFF802,
run `_option_erase` (raising `TargetError` on failure), then
`_option_unlock`, write OBPG|OBWEN to `FMC_CTL`, write 0x5AA5 to
0x1FFFF800 and the saved user word back to 0x1FFFF802, and busy-poll
(raising `TargetError` on expiry).  If not locked, delegate to the
chip-erase collaborator.  Success returns `()` (Python `None`). -/
def mass_erase (s : St) : Except TgtErr Unit × St :=
  let l := is_locked s
  if l.1 then
    let ru := read16 0x1FFFF802 l.2
    let oe := option_erase ru.2
    if oe.1 then
      let s1 := option_unlock oe.2
      let s2 := write32 FMC_CTL (OBPG ||| OBWEN) s1
      let s3 := write16 0x1FFFF800 0x5AA5 s2
      let s4 := write16 0x1FFFF802 ru.1 s3
      let p := busyPoll s4
      if p.1 then (Except.ok (), p.2)
      else (Except.error TgtErr.unableToUnlockDevice, logErr LogMsg.massEraseFail p.2)
    else
      (Except.error TgtErr.unableToUnlockDevice, logErr LogMsg.optionUnlockFail oe.2)
  else
    (Except.ok (), chipEraseCall l.2)

/-! ## Flash Algorithm Descriptor and memory map -/

/-- The fields of the `FLASH_ALGO` dictionary of the source. -/
structure FlashAlgo where
  load_address : Nat
  instructions : List Nat
  pc_init : Nat
  pc_unInit : Nat
  pc_program_page : Nat
  pc_erase_sector : Nat
  pc_eraseAll : Nat
  static_base : Nat
  begin_stack : Nat
  end_stack : Nat
  begin_data : Nat
  page_size : Nat
  analyzer_supported : Bool
  analyzer_address : Nat
  page_buffers : List Nat
  min_program_length : Nat
  ro_start : Nat
  ro_size : Nat
  rw_start : Nat
  rw_size : Nat
  zi_start : Nat
  zi_size : Nat
  flash_start : Nat
  flash_size : Nat
  sector_sizes : List (Nat × Nat)

/-- The `FLASH_ALGO` dictionary of the source, verbatim. -/
def FLASH_ALGO : FlashAlgo where
  load_address := 0x20000000
  instructions := [
    0xe7fdbe00,
    0xb086b5b0, 0x460c4613, 0x90054605, 0x92039104, 0x49129805, 0x49124008, 0x5050464a, 0xf2484811,
    0x60010100, 0x49114810, 0x49116001, 0x48116001, 0x21046800, 0x93024208, 0x95009401, 0xe7ffd10a,
    0x490e480d, 0x480e6001, 0x60012106, 0x490e480d, 0xe7ff6001, 0xb0062000, 0x46c0bdb0, 0xfffe0000,
    0x00000004, 0x40022000, 0x40022004, 0x45670123, 0xcdef89ab, 0x4002201c, 0x40003000, 0x00005555,
    0x40003004, 0x40003008, 0x00000fff, 0x4601b082, 0x48049001, 0x23806802, 0x6002431a, 0x91002000,
    0x4770b002, 0x40022010, 0x6801480d, 0x43112204, 0x68016001, 0x43112240, 0xe7ff6001, 0x68004809,
    0x42082101, 0xe7ffd004, 0x49084807, 0xe7f56001, 0x68014803, 0x43912204, 0x20006001, 0x46c04770,
    0x40022010, 0x4002200c, 0x40003000, 0x0000aaaa, 0x4601b082, 0x48109001, 0x23026802, 0x6002431a,
    0x4b0e9a01, 0x6802601a, 0x431a2340, 0x91006002, 0x480be7ff, 0x21016800, 0xd0044208, 0x4809e7ff,
    0x60014909, 0x4804e7f5, 0x22026801, 0x60014391, 0xb0022000, 0x46c04770, 0x40022010, 0x40022014,
    0x4002200c, 0x40003000, 0x0000aaaa, 0xb08ab5b0, 0x460c4613, 0x90084605, 0x92069107, 0x90042000,
    0x99079806, 0x90031840, 0x7800a807, 0x28000740, 0x94019302, 0xd0079500, 0x9807e7ff, 0x40082107,
    0x1a082108, 0xe7ff9004, 0x90052000, 0x9805e7ff, 0x42889904, 0xe7ffd20a, 0x1c419803, 0x21ff9103,
    0xe7ff7001, 0x1c409805, 0xe7f09005, 0x1dc09807, 0x43882107, 0x98089007, 0x464a4923, 0x22015851,
    0x18890452, 0xd2384288, 0xe7ffe7ff, 0x28009807, 0xe7ffd032, 0x6801481d, 0x43112201, 0x98066001,
    0x99086800, 0x98066008, 0x99086840, 0xe7ff6048, 0x68004817, 0x42082101, 0xe7ffd001, 0x4813e7f8,
    0x22016801, 0x60014391, 0x68004811, 0x42082114, 0xe7ffd008, 0x6801480e, 0x43112214, 0x20016001,
    0xe00d9009, 0x30089808, 0x98069008, 0x90063008, 0x38089807, 0xe7c99007, 0x2000e7ff, 0xe7ff9009,
    0xb00a9809, 0x46c0bdb0, 0x00000004, 0x40022010, 0x4002200c, 0x00000000, 0x00000000
    ]
  pc_init := 0x20000005
  pc_unInit := 0x20000091
  pc_program_page := 0x20000151
  pc_erase_sector := 0x200000f5
  pc_eraseAll := 0x200000ad
  static_base := 0x20000000 + 0x00000004 + 0x00000254
  begin_stack := 0x20001a60
  end_stack := 0x20000a60
  begin_data := 0x20000000 + 0x1000
  page_size := 0x400
  analyzer_supported := false
  analyzer_address := 0x00000000
  page_buffers := [0x20000260, 0x20000660]
  min_program_length := 0x400
  ro_start := 0x4
  ro_size := 0x254
  rw_start := 0x258
  rw_size := 0x4
  zi_start := 0x25c
  zi_size := 0x4
  flash_start := 0x8000000
  flash_size := 0x10000
  sector_sizes := [(0x0, 0x400)]

/-- A flash region of the memory map. -/
structure FlashRegionSpec where
  start : Nat
  length : Nat
  blocksize : Nat
  is_boot_memory : Bool
  algo : FlashAlgo

/-- A RAM region of the memory map. -/
structure RamRegionSpec where
  start : Nat
  length : Nat

/-- The flash region of `GD32E230G8.MEMORY_MAP`. -/
def flashRegion : FlashRegionSpec where
  start := 0x08000000
  length := 0x10000
  blocksize := 0x400
  is_boot_memory := true
  algo := FLASH_ALGO

/-- The RAM region of `GD32E230G8.MEMORY_MAP`. -/
def ramRegion : RamRegionSpec where
  start := 0x20000000
  length := 0x2000

/-- Modelled from the spec: a `sector_sizes` entry `(offset, size)`
gives the size of every sector from that offset up to the next entry's
offset (or the end of flash); "one sector of 0x400 repeated to cover
the region, per target-specific map".  This expands the map into the
list of concrete sector sizes partitioning the region. -/
def expandSectorMap : List (Nat × Nat) → Nat → List Nat
  | [], _ => []
  | [(o, sz)], flashEnd => List.replicate ((flashEnd - o) / sz) sz
  | (o, sz) :: (o2, sz2) :: rest, flashEnd =>
    List.replicate ((o2 - o) / sz) sz ++ expandSectorMap ((o2, sz2) :: rest) flashEnd

/-- Sum of all sector sizes in the (expanded) sector map. -/
def sectorMapTotal (m : List (Nat × Nat)) (flashEnd : Nat) : Nat :=
  (expandSectorMap m flashEnd).sum

/-! ## Trace observations -/

/-- Is the event a register/memory write? -/
def Ev.isWrite : Ev → Bool
  | Ev.w32 _ _ => true
  | Ev.w16 _ _ => true
  | _ => false

/-- The subsequence of write events of a trace, in order. -/
def writesOf (t : List Ev) : List Ev := t.filter Ev.isWrite

/-- Is the event a 16-bit read? -/
def Ev.isR16 : Ev → Bool
  | Ev.r16 _ _ => true
  | _ => false

/-- The subsequence of 16-bit read events of a trace, in order. -/
def r16sOf (t : List Ev) : List Ev := t.filter Ev.isR16

/-- Is the event a 32-bit write to the given address? -/
def Ev.isW32To (a : Nat) : Ev → Bool
  | Ev.w32 a2 _ => a2 == a
  | _ => false

/-- The subsequence of 32-bit writes to a given address, in order. -/
def w32sTo (a : Nat) (t : List Ev) : List Ev := t.filter (Ev.isW32To a)

/-- The values of the 16-bit writes to a given address, in order. -/
def w16ValsTo (a : Nat) (t : List Ev) : List Nat :=
  t.filterMap fun e => match e with
    | Ev.w16 a2 v => if a2 = a then some v else none
    | _ => none

/-- Number of status-register reads in a trace. -/
def statReads (t : List Ev) : Nat :=
  (t.filter fun e => match e with
    | Ev.r32 a _ => a == FMC_STAT
    | _ => false).length

/-- Shape of a busy-poll trace: status-register reads separated by exactly
one sleep each; every read followed by a sleep saw BUSY set, and a final
unfollowed read saw BUSY clear (the loop exits as soon as BUSY clears). -/
def pollShape : List Ev → Bool
  | [] => true
  | [Ev.r32 a v] => a == FMC_STAT && (v &&& BUSY) == 0
  | Ev.r32 a v :: Ev.sleepTenth :: rest =>
    a == FMC_STAT && !((v &&& BUSY) == 0) && pollShape rest
  | _ => false

/-! ## Closed form of the busy-poll loop -/

/-- Closed form of `pollLoop`: given the oracle and the read index, the
result, the number of reads consumed and the emitted trace segment. -/
def pollSpec : Nat → (Nat → Nat) → Nat → Bool × Nat × List Ev
  | 0, _, _ => (false, 0, [])
  | fuel + 1, e, k =>
    let v := e k % M32
    if (v &&& BUSY) = 0 then (true, 1, [Ev.r32 FMC_STAT v])
    else
      let p := pollSpec fuel e (k + 1)
      (p.1, p.2.1 + 1, Ev.r32 FMC_STAT v :: Ev.sleepTenth :: p.2.2)

/-- The write events of one `_option_unlock`. -/
def obUnlockEvs : List Ev :=
  [Ev.w32 FMC_KEY KEY1, Ev.w32 FMC_KEY KEY2,
   Ev.w32 FMC_OBKEY KEY1, Ev.w32 FMC_OBKEY KEY2]

/-- The two control-register writes of `_option_erase`. -/
def ctlEraseEvs : List Ev :=
  [Ev.w32 FMC_CTL (OBER ||| OBWEN), Ev.w32 FMC_CTL (OBER ||| OBWEN ||| START)]

/-- The option-byte programming writes of `mass_erase` (locked branch):
enable programming, write the 0x5AA5 magic, restore the user word `v`. -/
def obProgramEvs (v : Nat) : List Ev :=
  [Ev.w32 FMC_CTL (OBPG ||| OBWEN),
   Ev.w16 0x1FFFF800 0x5AA5, Ev.w16 0x1FFFF802 v]

/-- Closed form of `mass_erase`: result, number of reads consumed, and the
emitted trace segment, as a function of the oracle and the read index. -/
def massSpec (e : Nat → Nat) (k : Nat) : Except TgtErr Unit × Nat × List Ev :=
  let v0 := e k % M32
  if (v0 &&& 0x2) != 0 then
    let v := e (k + 1) % M16
    let p1 := pollSpec pollBudget e (k + 2)
    if p1.1 then
      let p2 := pollSpec pollBudget e (k + 2 + p1.2.1)
      ((if p2.1 then Except.ok () else Except.error TgtErr.unableToUnlockDevice),
       2 + p1.2.1 + p2.2.1,
       [Ev.r32 FMC_OBSTAT v0, Ev.r16 0x1FFFF802 v]
         ++ obUnlockEvs ++ ctlEraseEvs ++ p1.2.2
         ++ obUnlockEvs ++ obProgramEvs v ++ p2.2.2
         ++ (if p2.1 then [] else [Ev.logError LogMsg.massEraseFail]))
    else
      (Except.error TgtErr.unableToUnlockDevice,
       2 + p1.2.1,
       [Ev.r32 FMC_OBSTAT v0, Ev.r16 0x1FFFF802 v]
         ++ obUnlockEvs ++ ctlEraseEvs ++ p1.2.2
         ++ [Ev.logError LogMsg.optionEraseTimeout, Ev.logError LogMsg.optionUnlockFail])
  else
    (Except.ok (), 1, [Ev.r32 FMC_OBSTAT v0, Ev.chipErase EraserMode.chip false])

theorem pollLoop_eq (fuel : Nat) (s : St) :
    pollLoop fuel s =
      ((pollSpec fuel s.env s.k).1,
       ⟨s.env, s.k + (pollSpec fuel s.env s.k).2.1,
        s.trace ++ (pollSpec fuel s.env s.k).2.2⟩) := by
  induction fuel generalizing s with
  | zero => simp [pollLoop, pollSpec]
  | succ n ih =>
    simp only [pollLoop, pollSpec, read32, sleepTenth]
    by_cases h : (s.env s.k % M32 &&& BUSY) = 0
    · rw [if_pos h, if_pos h]
    · rw [if_neg h, if_neg h, ih]
      simp [List.append_assoc, Nat.add_assoc, Nat.add_comm 1]

/-! ## Properties of the poll trace -/

theorem pollSpec_shape (fuel : Nat) (e : Nat → Nat) (k : Nat) :
    pollShape (pollSpec fuel e k).2.2 = true := by
  induction fuel generalizing k with
  | zero => simp [pollSpec, pollShape]
  | succ n ih =>
    simp only [pollSpec]
    by_cases h : (e k % M32 &&& BUSY) = 0
    · rw [if_pos h]
      simp [pollShape, h]
    · rw [if_neg h]
      simp [pollShape, h, ih]

theorem pollSpec_mem (fuel : Nat) (e : Nat → Nat) (k : Nat) :
    ∀ x ∈ (pollSpec fuel e k).2.2,
      (∃ v, x = Ev.r32 FMC_STAT v) ∨ x = Ev.sleepTenth := by
  induction fuel generalizing k with
  | zero => simp [pollSpec]
  | succ n ih =>
    simp only [pollSpec]
    by_cases h : (e k % M32 &&& BUSY) = 0
    · rw [if_pos h]
      simp
    · rw [if_neg h]
      intro x hx
      simp only [List.mem_cons] at hx
      rcases hx with rfl | rfl | hx
      · exact Or.inl ⟨_, rfl⟩
      · exact Or.inr rfl
      · exact ih (k + 1) x hx

theorem pollSpec_writes (fuel : Nat) (e : Nat → Nat) (k : Nat) :
    writesOf (pollSpec fuel e k).2.2 = [] := by
  rw [writesOf, List.filter_eq_nil]
  intro x hx
  rcases pollSpec_mem fuel e k x hx with ⟨v, rfl⟩ | rfl <;> simp [Ev.isWrite]

theorem pollSpec_r16s (fuel : Nat) (e : Nat → Nat) (k : Nat) :
    r16sOf (pollSpec fuel e k).2.2 = [] := by
  rw [r16sOf, List.filter_eq_nil]
  intro x hx
  rcases pollSpec_mem fuel e k x hx with ⟨v, rfl⟩ | rfl <;> simp [Ev.isR16]

theorem pollSpec_w32sTo (fuel : Nat) (e : Nat → Nat) (k a : Nat) :
    w32sTo a (pollSpec fuel e k).2.2 = [] := by
  rw [w32sTo, List.filter_eq_nil]
  intro x hx
  rcases pollSpec_mem fuel e k x hx with ⟨v, rfl⟩ | rfl <;> simp [Ev.isW32To]

theorem pollSpec_w16ValsTo (fuel : Nat) (e : Nat → Nat) (k a : Nat) :
    w16ValsTo a (pollSpec fuel e k).2.2 = [] := by
  rw [w16ValsTo, List.filterMap_eq_nil]
  intro x hx
  rcases pollSpec_mem fuel e k x hx with ⟨v, rfl⟩ | rfl <;> simp

theorem pollSpec_reads_le (fuel : Nat) (e : Nat → Nat) (k : Nat) :
    statReads (pollSpec fuel e k).2.2 ≤ fuel := by
  induction fuel generalizing k with
  | zero => simp [pollSpec, statReads]
  | succ n ih =>
    simp only [pollSpec]
    by_cases h : (e k % M32 &&& BUSY) = 0
    · rw [if_pos h]
      simp [statReads]
    · rw [if_neg h]
      simp only [statReads, List.filter_cons]
      simp only [statReads] at ih
      simp [Nat.succ_le_succ (ih (k + 1))]

theorem pollSpec_false_reads (fuel : Nat) (e : Nat → Nat) (k : Nat)
    (hf : (pollSpec fuel e k).1 = false) :
    statReads (pollSpec fuel e k).2.2 = fuel := by
  induction fuel generalizing k with
  | zero => simp [pollSpec, statReads]
  | succ n ih =>
    simp only [pollSpec] at hf ⊢
    by_cases h : (e k % M32 &&& BUSY) = 0
    · rw [if_pos h] at hf
      simp at hf
    · rw [if_neg h] at hf ⊢
      simp only [statReads, List.filter_cons]
      simp only [statReads] at ih
      simp [ih (k + 1) hf]

theorem pollSpec_true_last (fuel : Nat) (e : Nat → Nat) (k : Nat)
    (ht : (pollSpec fuel e k).1 = true) :
    ∃ v, (pollSpec fuel e k).2.2.getLast? = some (Ev.r32 FMC_STAT v) ∧
      (v &&& BUSY) = 0 := by
  induction fuel generalizing k with
  | zero => simp [pollSpec] at ht
  | succ n ih =>
    simp only [pollSpec] at ht ⊢
    by_cases h : (e k % M32 &&& BUSY) = 0
    · rw [if_pos h] at ht ⊢
      exact ⟨_, rfl, h⟩
    · rw [if_neg h] at ht ⊢
      obtain ⟨v, hv, hb⟩ := ih (k + 1) ht
      refine ⟨v, ?_, hb⟩
      have hne : (pollSpec n e (k + 1)).2.2 ≠ [] := by
        intro hnil
        rw [hnil] at hv
        simp at hv
      simp [List.getLast?_cons, hv, hne]

/-! ## Closed forms of the driver operations -/

theorem flash_unlock_eq (s : St) :
    flash_unlock s =
      ⟨s.env, s.k, s.trace ++ [Ev.w32 FMC_KEY KEY1, Ev.w32 FMC_KEY KEY2]⟩ := by
  simp [flash_unlock, write32]

theorem option_unlock_eq (s : St) :
    option_unlock s = ⟨s.env, s.k, s.trace ++ obUnlockEvs⟩ := by
  simp [option_unlock, flash_unlock, write32, obUnlockEvs]

theorem option_erase_eq (s : St) :
    option_erase s =
      ((pollSpec pollBudget s.env s.k).1,
       ⟨s.env, s.k + (pollSpec pollBudget s.env s.k).2.1,
        s.trace ++ obUnlockEvs ++ ctlEraseEvs ++ (pollSpec pollBudget s.env s.k).2.2
          ++ (if (pollSpec pollBudget s.env s.k).1 then []
              else [Ev.logError LogMsg.optionEraseTimeout])⟩) := by
  by_cases hp : (pollSpec pollBudget s.env s.k).1
  · simp [option_erase, busyPoll, pollLoop_eq, option_unlock_eq, write32, logErr,
      obUnlockEvs, ctlEraseEvs, hp, List.append_assoc]
  · simp [option_erase, busyPoll, pollLoop_eq, option_unlock_eq, write32, logErr,
      obUnlockEvs, ctlEraseEvs, hp, List.append_assoc]

theorem mass_erase_eq (s : St) :
    mass_erase s =
      ((massSpec s.env s.k).1,
       ⟨s.env, s.k + (massSpec s.env s.k).2.1,
        s.trace ++ (massSpec s.env s.k).2.2⟩) := by
  by_cases h1 : (s.env s.k % M32 &&& 0x2) = 0
  · simp [mass_erase, massSpec, is_locked, read32, chipEraseCall, h1]
  · by_cases h2 : (pollSpec pollBudget s.env (s.k + 2)).1
    · simp only [mass_erase, massSpec, is_locked, read32, read16, option_erase_eq,
        option_unlock_eq, busyPoll, pollLoop_eq, write32, write16, logErr,
        obUnlockEvs, ctlEraseEvs, obProgramEvs]
      simp [h1, h2, List.append_assoc, Nat.add_assoc]
      split_ifs <;> simp [List.append_assoc]
    · simp [mass_erase, massSpec, is_locked, read32, read16, option_erase_eq,
        option_unlock_eq, busyPoll, pollLoop_eq, write32, write16, logErr,
        obUnlockEvs, ctlEraseEvs, obProgramEvs, h1, h2,
        List.append_assoc, Nat.add_assoc]

/-! ## Evaluation lemmas for the trace observations -/

theorem writesOf_append (t1 t2 : List Ev) :
    writesOf (t1 ++ t2) = writesOf t1 ++ writesOf t2 := by
  simp [writesOf]

theorem r16sOf_append (t1 t2 : List Ev) :
    r16sOf (t1 ++ t2) = r16sOf t1 ++ r16sOf t2 := by
  simp [r16sOf]

theorem w32sTo_append (a : Nat) (t1 t2 : List Ev) :
    w32sTo a (t1 ++ t2) = w32sTo a t1 ++ w32sTo a t2 := by
  simp [w32sTo]

theorem w16ValsTo_append (a : Nat) (t1 t2 : List Ev) :
    w16ValsTo a (t1 ++ t2) = w16ValsTo a t1 ++ w16ValsTo a t2 := by
  simp [w16ValsTo]

theorem ober_obwen_val : OBER ||| OBWEN = 0x220 := by decide

theorem ober_obwen_start_val : OBER ||| OBWEN ||| START = 0x260 := by decide

theorem obpg_obwen_val : OBPG ||| OBWEN = 0x210 := by decide

/-! ## The claims -/

/-- C4: for every 32-bit value of the option-byte-status register,
`is_locked` returns true iff bit 1 of the value read is set, independent
of all other bits, and performs no register writes: its whole effect is
the single `FMC_OBSTAT` read. -/
theorem c4_is_locked_iff_bit1 (s : St) :
    ((is_locked s).1 = true ↔ Nat.testBit (s.env s.k % M32) 1 = true) ∧
    (is_locked s).2.trace = s.trace ++ [Ev.r32 FMC_OBSTAT (s.env s.k % M32)] ∧
    writesOf (is_locked s).2.trace = writesOf s.trace := by
  refine ⟨?_, by simp [is_locked, read32], ?_⟩
  · simp only [is_locked, read32, bne_iff_ne, ne_eq]
    rw [show (2 : Nat) = 2 ^ 1 by norm_num, Nat.and_two_pow]
    cases h : Nat.testBit (s.env s.k % M32) 1 <;> simp [h]
  · simp [is_locked, read32, writesOf, List.filter_append, Ev.isWrite]

/-- C5: `_flash_unlock` issues exactly the two writes KEY1 then KEY2 to
`FMC_KEY`, in that order, from any state; `_option_unlock` performs the
whole `_flash_unlock` sequence first and only then writes KEY1 then KEY2
to `FMC_OBKEY`. -/
theorem c5_unlock_sequences (s : St) :
    flash_unlock s =
      ⟨s.env, s.k, s.trace ++ [Ev.w32 FMC_KEY KEY1, Ev.w32 FMC_KEY KEY2]⟩ ∧
    option_unlock s =
      ⟨s.env, s.k,
       s.trace ++ [Ev.w32 FMC_KEY KEY1, Ev.w32 FMC_KEY KEY2,
                   Ev.w32 FMC_OBKEY KEY1, Ev.w32 FMC_OBKEY KEY2]⟩ :=
  ⟨flash_unlock_eq s, option_unlock_eq s⟩

/-- C2: `_option_erase` writes `FMC_CTL` exactly twice, with 0x220
(OBER|OBWEN) then 0x260 (OBER|OBWEN|START), in that order; its only
writes are the four unlock-key writes followed by those two; if the BUSY
bit never reads clear within the deadline it returns `false` and its last
event is the logged error (so no further writes), and if it returns
`true` its last event is a status read with BUSY clear. -/
theorem c2_option_erase_protocol (s : St) :
    ∃ t, (option_erase s).2.trace = s.trace ++ t ∧
      w32sTo FMC_CTL t = [Ev.w32 FMC_CTL 0x220, Ev.w32 FMC_CTL 0x260] ∧
      writesOf t =
        [Ev.w32 FMC_KEY KEY1, Ev.w32 FMC_KEY KEY2,
         Ev.w32 FMC_OBKEY KEY1, Ev.w32 FMC_OBKEY KEY2,
         Ev.w32 FMC_CTL 0x220, Ev.w32 FMC_CTL 0x260] ∧
      ((option_erase s).1 = false →
        t.getLast? = some (Ev.logError LogMsg.optionEraseTimeout)) ∧
      ((option_erase s).1 = true →
        ∃ v, t.getLast? = some (Ev.r32 FMC_STAT v) ∧ (v &&& BUSY) = 0) := by
  refine ⟨obUnlockEvs ++ ctlEraseEvs ++ (pollSpec pollBudget s.env s.k).2.2
      ++ (if (pollSpec pollBudget s.env s.k).1 then []
          else [Ev.logError LogMsg.optionEraseTimeout]), ?_, ?_, ?_, ?_, ?_⟩
  · rw [option_erase_eq]
    simp [List.append_assoc]
  · by_cases hp : (pollSpec pollBudget s.env s.k).1
    · rw [if_pos hp]
      simp only [w32sTo_append, pollSpec_w32sTo]
      rfl
    · rw [if_neg hp]
      simp only [w32sTo_append, pollSpec_w32sTo]
      rfl
  · by_cases hp : (pollSpec pollBudget s.env s.k).1
    · rw [if_pos hp]
      simp only [writesOf_append, pollSpec_writes]
      rfl
    · rw [if_neg hp]
      simp only [writesOf_append, pollSpec_writes]
      rfl
  · intro hf
    rw [option_erase_eq] at hf
    simp at hf
    simp [hf]
  · intro ht
    rw [option_erase_eq] at ht
    simp at ht
    obtain ⟨v, hv, hb⟩ := pollSpec_true_last pollBudget s.env s.k ht
    refine ⟨v, ?_, hb⟩
    have hne : (pollSpec pollBudget s.env s.k).2.2 ≠ [] := by
      intro hnil
      rw [hnil] at hv
      simp at hv
    simp [ht, List.getLast?_append_of_ne_nil _ hne, hv]

/-- C1: on the locked branch (with the option-byte erase succeeding, the
only path that reaches the programming step), `mass_erase` reads the
16-bit user-option word at 0x1FFFF802 exactly once, immediately after
the lock check and before any write; its writes are the option-erase
sequence, then a second unlock, then OBPG|OBWEN, then 0x5AA5 to
0x1FFFF800 followed by exactly the read value back to 0x1FFFF802; the
last 16-bit write to 0x1FFFF802 is that same value, so the final
user-option word equals the value read at the start. -/
theorem c1_user_word_roundtrip (s : St)
    (hl : (s.env s.k % M32 &&& 0x2) ≠ 0)
    (he : (pollSpec pollBudget s.env (s.k + 2)).1 = true) :
    ∃ rest,
      (mass_erase s).2.trace =
        s.trace ++ Ev.r32 FMC_OBSTAT (s.env s.k % M32)
          :: Ev.r16 0x1FFFF802 (s.env (s.k + 1) % M16) :: rest ∧
      r16sOf rest = [] ∧
      writesOf rest =
        obUnlockEvs ++ ctlEraseEvs ++ obUnlockEvs
          ++ obProgramEvs (s.env (s.k + 1) % M16) ∧
      (w16ValsTo 0x1FFFF802 rest).getLast? = some (s.env (s.k + 1) % M16) := by
  have hl' : (s.env s.k % M32 &&& 0x2) != 0 := by simp [bne_iff_ne, hl]
  refine ⟨obUnlockEvs ++ ctlEraseEvs ++ (pollSpec pollBudget s.env (s.k + 2)).2.2
      ++ obUnlockEvs ++ obProgramEvs (s.env (s.k + 1) % M16)
      ++ (pollSpec pollBudget s.env
            (s.k + 2 + (pollSpec pollBudget s.env (s.k + 2)).2.1)).2.2
      ++ (if (pollSpec pollBudget s.env
            (s.k + 2 + (pollSpec pollBudget s.env (s.k + 2)).2.1)).1 then []
          else [Ev.logError LogMsg.massEraseFail]), ?_, ?_, ?_, ?_⟩
  · rw [mass_erase_eq]
    simp only [massSpec, hl', if_pos, he, if_true]
    simp [List.append_assoc, Nat.add_assoc]
  · by_cases hp : (pollSpec pollBudget s.env
        (s.k + 2 + (pollSpec pollBudget s.env (s.k + 2)).2.1)).1
    · rw [if_pos hp]
      simp only [r16sOf_append, pollSpec_r16s]
      rfl
    · rw [if_neg hp]
      simp only [r16sOf_append, pollSpec_r16s]
      rfl
  · by_cases hp : (pollSpec pollBudget s.env
        (s.k + 2 + (pollSpec pollBudget s.env (s.k + 2)).2.1)).1
    · rw [if_pos hp]
      simp only [writesOf_append, pollSpec_writes]
      rfl
    · rw [if_neg hp]
      simp only [writesOf_append, pollSpec_writes]
      rfl
  · by_cases hp : (pollSpec pollBudget s.env
        (s.k + 2 + (pollSpec pollBudget s.env (s.k + 2)).2.1)).1
    · rw [if_pos hp]
      simp only [w16ValsTo_append, pollSpec_w16ValsTo]
      rfl
    · rw [if_neg hp]
      simp only [w16ValsTo_append, pollSpec_w16ValsTo]
      rfl

/-- C1 witness: a concrete locked device whose user-option word reads
0x1234 and whose status reads idle. -/
theorem c1_user_word_roundtrip_witness :
    ∃ rest,
      (mass_erase ⟨fun n => if n = 0 then 2 else if n = 1 then 0x1234 else 0,
          0, []⟩).2.trace =
        [] ++ Ev.r32 FMC_OBSTAT 2 :: Ev.r16 0x1FFFF802 0x1234 :: rest ∧
      r16sOf rest = [] ∧
      writesOf rest =
        obUnlockEvs ++ ctlEraseEvs ++ obUnlockEvs ++ obProgramEvs 0x1234 ∧
      (w16ValsTo 0x1FFFF802 rest).getLast? = some 0x1234 :=
  c1_user_word_roundtrip
    ⟨fun n => if n = 0 then 2 else if n = 1 then 0x1234 else 0, 0, []⟩
    (by decide) (by decide)

/-- C3: on the locked branch, if the option-byte erase times out
`mass_erase` raises the fatal "unable to unlock device" error and
performs no register write beyond the option-erase sequence itself (its
writes are exactly the unlock keys and the two control writes, and its
last event is the logged unlock failure); and if the erase succeeds but
the final programming busy-poll times out, it raises the same fatal
error rather than returning a failure value. -/
theorem c3_fatal_unlock_errors (s : St)
    (hl : (s.env s.k % M32 &&& 0x2) ≠ 0) :
    ((pollSpec pollBudget s.env (s.k + 2)).1 = false →
      (mass_erase s).1 = Except.error TgtErr.unableToUnlockDevice ∧
      ∃ t, (mass_erase s).2.trace = s.trace ++ t ∧
        writesOf t = obUnlockEvs ++ ctlEraseEvs ∧
        t.getLast? = some (Ev.logError LogMsg.optionUnlockFail)) ∧
    ((pollSpec pollBudget s.env (s.k + 2)).1 = true →
      (pollSpec pollBudget s.env
          (s.k + 2 + (pollSpec pollBudget s.env (s.k + 2)).2.1)).1 = false →
      (mass_erase s).1 = Except.error TgtErr.unableToUnlockDevice) := by
  have hl' : (s.env s.k % M32 &&& 0x2) != 0 := by simp [bne_iff_ne, hl]
  constructor
  · intro hf
    rw [mass_erase_eq]
    simp only [massSpec, hl', if_pos, hf]
    refine ⟨by simp, ?_⟩
    refine ⟨[Ev.r32 FMC_OBSTAT (s.env s.k % M32),
         Ev.r16 0x1FFFF802 (s.env (s.k + 1) % M16)]
        ++ (obUnlockEvs ++ ctlEraseEvs ++ (pollSpec pollBudget s.env (s.k + 2)).2.2
            ++ [Ev.logError LogMsg.optionEraseTimeout,
                Ev.logError LogMsg.optionUnlockFail]), ?_, ?_, ?_⟩
    · simp [List.append_assoc]
    · simp only [writesOf_append, pollSpec_writes]
      rfl
    · simp [List.getLast?_cons, List.getLast?_append_of_ne_nil]
  · intro ht hf
    rw [mass_erase_eq]
    simp only [massSpec, hl', if_pos, ht, if_true, hf]
    simp

/-- C3 witness: a concrete locked device whose status register always
reads BUSY, so the option-byte erase times out and `mass_erase` raises
the fatal error with no writes after the option-erase sequence. -/
theorem c3_fatal_unlock_errors_witness :
    (mass_erase ⟨fun n => if n = 0 then 2 else 1, 0, []⟩).1
      = Except.error TgtErr.unableToUnlockDevice := by
  have h := c3_fatal_unlock_errors ⟨fun n => if n = 0 then 2 else 1, 0, []⟩
    (by decide)
  exact (h.1 (by decide)).1

/-- C6 counterexample: with the option-byte-status register reading 0
(`is_locked` false), the trace of `mass_erase` is the guard's read of
the option-byte-status register 0x4002201C followed by the chip-erase
delegation — so, as literally stated, "no reads ... of the ...
option-byte-status register" fails: the guard itself reads it. -/
theorem c6_counterexample :
    (mass_erase ⟨fun _ => 0, 0, []⟩).2.trace
      = [Ev.r32 FMC_OBSTAT 0, Ev.chipErase EraserMode.chip false] ∧
    (is_locked ⟨fun _ => 0, 0, []⟩).1 = false ∧
    FMC_OBSTAT = 0x4002201C := by
  refine ⟨?_, by decide, by decide⟩
  rw [mass_erase_eq]
  simp [massSpec, M32]

/-- C6 (amended): when the option-byte-status read of the `is_locked`
guard shows the device unlocked, `mass_erase` delegates entirely to the
chip-erase collaborator in chip-wide mode with completion logging
suppressed, and — apart from that single guard read — performs no other
event: no reads or writes of the key, option-byte key, status, control,
or option-byte-status registers, and no accesses to
0x1FFFF800/0x1FFFF802. -/
theorem c6_unlocked_delegates (s : St)
    (h : (s.env s.k % M32 &&& 0x2) = 0) :
    mass_erase s =
      (Except.ok (),
       ⟨s.env, s.k + 1,
        s.trace ++ [Ev.r32 FMC_OBSTAT (s.env s.k % M32),
                    Ev.chipErase EraserMode.chip false]⟩) := by
  rw [mass_erase_eq]
  simp [massSpec, h]

/-- C6 witness: the concrete unlocked device of the counterexample. -/
theorem c6_unlocked_delegates_witness :
    mass_erase ⟨fun _ => 0, 0, []⟩ =
      (Except.ok (),
       ⟨fun _ => 0, 1,
        [Ev.r32 FMC_OBSTAT 0, Ev.chipErase EraserMode.chip false]⟩) := by
  have h := c6_unlocked_delegates ⟨fun _ => 0, 0, []⟩ (by decide)
  simpa [M32] using h

/-- C7: the descriptor is internally consistent: the sector map expands
to sectors summing exactly to the declared flash region length 0x10000;
both double-buffer addresses lie strictly within the RAM region bounds;
and the static-data base lies within the loaded instruction footprint
(load address to load address + 4 bytes per instruction word). -/
theorem c7_descriptor_consistent :
    sectorMapTotal FLASH_ALGO.sector_sizes FLASH_ALGO.flash_size
        = flashRegion.length ∧
    FLASH_ALGO.flash_size = flashRegion.length ∧
    (∀ b ∈ FLASH_ALGO.page_buffers,
        ramRegion.start < b ∧ b < ramRegion.start + ramRegion.length) ∧
    FLASH_ALGO.load_address ≤ FLASH_ALGO.static_base ∧
    FLASH_ALGO.static_base <
      FLASH_ALGO.load_address + 4 * FLASH_ALGO.instructions.length := by
  refine ⟨by decide, by decide, by decide, by decide, ?_⟩
  have hlen : FLASH_ALGO.instructions.length = 152 := by decide
  rw [hlen]
  decide

/-- C9: the two double-buffer regions (each `page_size` = 0x400 bytes at
0x20000260 and 0x20000660) are adjacent but disjoint, both end at or
below `end_stack`, the stack region runs from `end_stack` 0x20000a60 up
to `begin_stack` 0x20001a60, and everything lies inside the RAM region
[0x20000000, 0x20002000). -/
theorem c9_buffers_disjoint_below_stack :
    FLASH_ALGO.page_buffers = [0x20000260, 0x20000660] ∧
    FLASH_ALGO.page_size = 0x400 ∧
    0x20000260 + FLASH_ALGO.page_size ≤ 0x20000660 ∧
    0x20000660 + FLASH_ALGO.page_size ≤ FLASH_ALGO.end_stack ∧
    FLASH_ALGO.end_stack = 0x20000a60 ∧
    FLASH_ALGO.begin_stack = 0x20001a60 ∧
    FLASH_ALGO.end_stack ≤ FLASH_ALGO.begin_stack ∧
    ramRegion.start ≤ 0x20000260 ∧
    FLASH_ALGO.begin_stack < ramRegion.start + ramRegion.length := by
  decide

/-- C8: every busy-poll terminates with a trace of poll shape — reads of
the status register separated by exactly one 0.1-unit sleep, exiting as
soon as BUSY is clear — and performs at most timeout/interval = 100
status reads; a `false` result means the full budget of reads was used
(all BUSY), and a `true` result means the last event is a status read
with BUSY clear. -/
theorem c8_busy_poll_bounded (s : St) :
    ∃ t, (busyPoll s).2.trace = s.trace ++ t ∧
      pollShape t = true ∧
      statReads t ≤ FLASH_ERASE_TIMEOUT_TENTHS / POLL_INTERVAL_TENTHS ∧
      ((busyPoll s).1 = false → statReads t = pollBudget) ∧
      ((busyPoll s).1 = true →
        ∃ v, t.getLast? = some (Ev.r32 FMC_STAT v) ∧ (v &&& BUSY) = 0) := by
  refine ⟨(pollSpec pollBudget s.env s.k).2.2, ?_,
    pollSpec_shape pollBudget s.env s.k, pollSpec_reads_le pollBudget s.env s.k,
    ?_, ?_⟩
  · rw [busyPoll, pollLoop_eq]
  · intro hf
    rw [busyPoll, pollLoop_eq] at hf
    exact pollSpec_false_reads pollBudget s.env s.k hf
  · intro ht
    rw [busyPoll, pollLoop_eq] at ht
    exact pollSpec_true_last pollBudget s.env s.k ht

/-- C2 witness: the protocol facts at a concrete device whose status
register reads idle at once. -/
theorem c2_option_erase_protocol_witness :
    ∃ t, (option_erase ⟨fun _ => 0, 0, []⟩).2.trace = [] ++ t ∧
      w32sTo FMC_CTL t = [Ev.w32 FMC_CTL 0x220, Ev.w32 FMC_CTL 0x260] ∧
      writesOf t =
        [Ev.w32 FMC_KEY KEY1, Ev.w32 FMC_KEY KEY2,
         Ev.w32 FMC_OBKEY KEY1, Ev.w32 FMC_OBKEY KEY2,
         Ev.w32 FMC_CTL 0x220, Ev.w32 FMC_CTL 0x260] ∧
      ((option_erase ⟨fun _ => 0, 0, []⟩).1 = false →
        t.getLast? = some (Ev.logError LogMsg.optionEraseTimeout)) ∧
      ((option_erase ⟨fun _ => 0, 0, []⟩).1 = true →
        ∃ v, t.getLast? = some (Ev.r32 FMC_STAT v) ∧ (v &&& BUSY) = 0) :=
  c2_option_erase_protocol ⟨fun _ => 0, 0, []⟩

/-- C8 witness: the bounded-poll facts at a concrete device whose status
register reads idle at once. -/
theorem c8_busy_poll_bounded_witness :
    ∃ t, (busyPoll ⟨fun _ => 0, 0, []⟩).2.trace = [] ++ t ∧
      pollShape t = true ∧
      statReads t ≤ FLASH_ERASE_TIMEOUT_TENTHS / POLL_INTERVAL_TENTHS ∧
      ((busyPoll ⟨fun _ => 0, 0, []⟩).1 = false → statReads t = pollBudget) ∧
      ((busyPoll ⟨fun _ => 0, 0, []⟩).1 = true →
        ∃ v, t.getLast? = some (Ev.r32 FMC_STAT v) ∧ (v &&& BUSY) = 0) :=
  c8_busy_poll_bounded ⟨fun _ => 0, 0, []⟩

/-- C10: `mass_erase` either succeeds returning `()` (Python `None`), in
both branches, or raises the fatal "unable to unlock device" error; the
boolean failure of `_option_erase` never escapes as a return value. -/
theorem c10_mass_erase_result (s : St) :
    (mass_erase s).1 = Except.ok () ∨
    (mass_erase s).1 = Except.error TgtErr.unableToUnlockDevice := by
  rw [mass_erase_eq]
  simp only [massSpec]
  split_ifs <;> simp

end GD32
